import Mathlib

/-!
Verification of the core logic of a small HTTP video-downloader service
(`src/app.py`): URL shape validation, platform allow-listing, form-field
validation in the POST handler, and the download orchestration workflow
(external tool invocation modelled abstractly, output-file selection,
response construction, scratch-directory cleanup).

The embedding is shallow: Python string/byte values become Lean `String` /
`List Nat`; the filesystem state relevant to one request is the single
boolean "does the scratch directory of this request exist"; the external tool
invocation (`subprocess.run`) is abstracted by a `ToolOutcome` record that
fixes whether the call timed out, its exit code, its captured output, and
the files present in the scratch directory afterwards.  Unicode-only
behaviours (full Unicode case folding / whitespace classes) are idealized
to their ASCII restrictions, which the `Char.toLower` of Lean implements.
-/

namespace App

/-- String prefix test on character lists (`startswith` / prefix matching). -/
def listStartsWith : List Char → List Char → Bool
  | [], _ => true
  | _ :: _, [] => false
  | a :: as, b :: bs => a == b && listStartsWith as bs

/-- Contiguous-substring test on character lists (the Python `in` operator on `str`). -/
def listContainsSub (p : List Char) : List Char → Bool
  | [] => listStartsWith p []
  | c :: t => listStartsWith p (c :: t) || listContainsSub p t

/-- Python `str.lower()`, restricted to ASCII case mapping (`Char.toLower`). -/
def pyLower (s : String) : String := ⟨s.data.map Char.toLower⟩

/-- Python whitespace characters stripped by `str.strip()` (ASCII subset). -/
def pyIsSpace (c : Char) : Bool :=
  c == ' ' || c == '\t' || c == '\n' || c == '\r' || c == '\x0b' || c == '\x0c'

/-- Python `str.strip()` with no argument: remove leading and trailing whitespace. -/
def pyStrip (s : String) : String :=
  ⟨((s.data.dropWhile pyIsSpace).reverse.dropWhile pyIsSpace).reverse⟩

/-- Substring containment after the receiver is taken as a `String`. -/
def containsSub (s : String) (pat : String) : Bool := listContainsSub pat.data s.data

/-- Embeds `detect_platform` from `src/app.py`: lower-case the URL and test
fixed substrings, YouTube first, then Kling AI, else `"Unknown"`. -/
def detect_platform (url : String) : String :=
  if containsSub (pyLower url) "youtube.com" || containsSub (pyLower url) "youtu.be" then
    "YouTube"
  else if containsSub (pyLower url) "klingai" || containsSub (pyLower url) "kling.ai" then
    "Kling AI"
  else
    "Unknown"

/-- Embeds the module-level regex `URL_RE = re.compile(r"^https?://", re.IGNORECASE)`
applied with `.match`: the string must start with `http://` or `https://`,
compared case-insensitively. -/
def URL_RE_match (url : String) : Bool :=
  listStartsWith "http://".data (pyLower url).data ||
  listStartsWith "https://".data (pyLower url).data

/-- ASCII letter test (`str.isascii() and str.isalpha()` on one character). -/
def asciiAlpha (c : Char) : Bool := ('a' ≤ c && c ≤ 'z') || ('A' ≤ c && c ≤ 'Z')

/-- Characters permitted in a URL scheme by `urllib.parse` (`scheme_chars`). -/
def schemeChar (c : Char) : Bool :=
  asciiAlpha c || ('0' ≤ c && c ≤ '9') || c == '+' || c == '-' || c == '.'

/-- The sanitation `urllib.parse.urlsplit` performs before parsing: strip
leading C0-control-or-space characters, then delete every tab, CR and LF. -/
def urlsplitClean (s : List Char) : List Char :=
  (s.dropWhile (fun c => c.toNat ≤ 0x20)).filter
    (fun c => !(c == '\t' || c == '\r' || c == '\n'))

/-- Scheme extraction of `urllib.parse.urlsplit`: if the first colon sits at a
positive index, everything before it is made of scheme characters and starts
with an ASCII letter, the scheme is that text lower-cased and the rest follows
the colon; otherwise the scheme is empty and the input is left whole. -/
def splitScheme (u : List Char) : String × List Char :=
  match u.findIdx? (· == ':') with
  | some i =>
    if 0 < i && (u.take i).all schemeChar &&
        (match u with | c :: _ => asciiAlpha c | [] => false) then
      (⟨(u.take i).map Char.toLower⟩, u.drop (i + 1))
    else
      ("", u)
  | none => ("", u)

/-- Netloc extraction of `urllib.parse.urlsplit` (`_splitnetloc`): when the
remainder starts with `//`, the netloc runs until the next `/`, `?` or `#`. -/
def splitNetloc : List Char → String
  | '/' :: '/' :: r => ⟨r.takeWhile (fun c => !(c == '/' || c == '?' || c == '#'))⟩
  | _ => ""

/-- The `scheme`/`netloc` components of the Python parse result; the only two
fields `is_valid_http_url` reads. -/
structure ParsedUrl where
  scheme : String
  netloc : String
deriving DecidableEq

/-- Embeds `urllib.parse.urlparse` restricted to the two consulted components. -/
def urlparse (url : String) : ParsedUrl :=
  match splitScheme (urlsplitClean url.data) with
  | (scheme, rest) => ⟨scheme, splitNetloc rest⟩

/-- Embeds `is_valid_http_url` from `src/app.py`: require the `^https?://`
regex to match, then parse and require scheme `http`/`https` and a non-empty
netloc. -/
def is_valid_http_url (url : String) : Bool :=
  if URL_RE_match url then
    ((urlparse url).scheme == "http" || (urlparse url).scheme == "https") &&
      !((urlparse url).netloc == "")
  else
    false

/-- The parsed form body as consulted by `do_POST`: `parse_qs` with
`keep_blank_values=True` yields, for each of the two consulted keys, either no
entry (the key was absent) or a non-empty value list of which only the first
element is read.  A blank value such as `format=` is therefore `some ""`,
distinct from the key being absent (`none`). -/
structure Form where
  url : Option String
  format : Option String
deriving DecidableEq

/-- The line `url = (form.get("url") or [""])[0].strip()`. -/
def formUrl (f : Form) : String := pyStrip (f.url.getD "")

/-- The line `output_format = ((form.get("format") or ["mp4"])[0].strip().lower())`. -/
def formFormat (f : Form) : String := pyLower (pyStrip (f.format.getD "mp4"))

/-- The constant `MAX_FORM_BYTES = 8 * 1024`. -/
def MAX_FORM_BYTES : Int := 8 * 1024

/-- The declared body size: `int(self.headers.get("Content-Length", "0"))`,
with an absent header reading as `0`.  (A header that fails integer parsing
raises and is answered by the generic 500 handler; that path is out of the
modelled pipeline.) -/
def contentLengthOf (clHeader : Option Int) : Int := clHeader.getD 0

/-- What `do_POST` decides before any download work happens: either respond
immediately with an error page (HTTP status and user-facing message), or call
`handle_download` with the validated url and format. -/
inductive PostAction where
  | respondError (status : Nat) (message : String)
  | invokeDownload (url : String) (fmt : String)
deriving DecidableEq

/-- Embeds the validation pipeline of `AppHandler.do_POST` (`src/app.py`),
from the `Content-Length` gate down to the `shutil.which("yt-dlp")` check, in
source order: body-size gate, URL shape check, format check, platform
allow-list check, tool availability check. -/
def validate_post (clHeader : Option Int) (form : Form) (toolAvailable : Bool) : PostAction :=
  if contentLengthOf clHeader ≤ 0 || MAX_FORM_BYTES < contentLengthOf clHeader then
    .respondError 400 "Request is too large or invalid."
  else if formUrl form == "" || !is_valid_http_url (formUrl form) then
    .respondError 400 "Please provide a valid http/https URL."
  else if !(formFormat form == "mp4" || formFormat form == "mp3") then
    .respondError 400 "Invalid format selected."
  else if detect_platform (formUrl form) == "Unknown" then
    .respondError 400 "Only YouTube and Kling AI URLs are allowed in this educational demo."
  else if !toolAvailable then
    .respondError 503 "yt-dlp is not installed on this server."
  else
    .invokeDownload (formUrl form) (formFormat form)

/-- Abstraction of one `subprocess.run(cmd, capture_output=True, text=True,
timeout=180)` call and of the scratch-directory contents when it returns:
whether the 180-second wall clock expired, the exit code of the child, the captured
diagnostics (never shown to the client), and the files now present in the
scratch directory as (name, byte-content) pairs with distinct names. -/
structure ToolOutcome where
  timedOut : Bool
  returncode : Int
  stdout : String
  stderr : String
  files : List (String × List Nat)
deriving DecidableEq

/-- An HTTP answer of the POST handler: either an error page rendered by
`respond_form_error` (status plus the message embedded in the form), or the
streamed file response with its headers and body bytes. -/
inductive Outcome where
  | formError (status : Nat) (message : String)
  | stream (status : Nat) (contentType : String) (contentDisposition : String)
      (contentLength : Nat) (body : List Nat)
deriving DecidableEq

/-- The per-request filesystem state: whether the scratch directory of this request
(the `tempfile.mkdtemp(prefix="edu_downloader_")` directory) exists. -/
structure FsState where
  scratchDirExists : Bool
deriving DecidableEq

/-- Models `shutil.rmtree(temp_dir, ignore_errors=True)` over a reliable
filesystem: the directory is gone afterwards. -/
def shutil_rmtree (fs : FsState) : FsState := { fs with scratchDirExists := false }

/-- The argument list built for the external tool, per `handle_download`. -/
def build_cmd (yt_dlp url fmt outputTemplate : String) : List String :=
  if fmt == "mp3" then
    [yt_dlp, "--no-playlist", "-x", "--audio-format", "mp3", "-o", outputTemplate, url]
  else
    [yt_dlp, "--no-playlist", "-f", "mp4/bestvideo+bestaudio/best",
      "--merge-output-format", "mp4", "-o", outputTemplate, url]

/-- The MIME type chosen next to the command line in `handle_download`. -/
def mimeFor (fmt : String) : String := if fmt == "mp3" then "audio/mpeg" else "video/mp4"

/-- The attachment filename chosen next to the command line in `handle_download`. -/
def attachmentFor (fmt : String) : String :=
  if fmt == "mp3" then "downloaded.mp3" else "downloaded.mp4"

/-- Whether a scratch-directory entry matches `Path(temp_dir).glob("downloaded.*")`:
its name starts with `downloaded.` (the `*` may match the empty string, and
directory entries contain no path separator). -/
def globDownloadedMatch (name : String) : Bool :=
  listStartsWith "downloaded.".data name.data

/-- Non-strict lexicographic order on character lists by code point — the
order Python uses to compare strings (and `Path` objects within one
directory). -/
def charListLe : List Char → List Char → Bool
  | [], _ => true
  | _ :: _, [] => false
  | a :: as, b :: bs => if a < b then true else if b < a then false else charListLe as bs

/-- Non-strict lexicographic order on strings by code point. -/
def strLe (a b : String) : Bool := charListLe a.data b.data

/-- The line `generated = sorted(Path(temp_dir).glob("downloaded.*"))`: the matching
entries in lexicographic filename order.  Path objects in one directory
compare by their final component, and both the Python `sorted` and
`List.mergeSort` are stable, so sorting the (name, content) pairs by name
reproduces the Python choice exactly. -/
def sortedGenerated (files : List (String × List Nat)) : List (String × List Nat) :=
  (files.filter (fun f => globDownloadedMatch f.1)).mergeSort
    (fun a b => strLe a.1 b.1)

/-- The body of the `try` block of `AppHandler.handle_download` after the
subprocess call, together with the timeout handler: on timeout respond 408; on
non-zero exit respond 400; with no matching output respond 400; otherwise
stream the lexicographically first matching file with status 200, the
MIME type of the format, an attachment disposition, and the file size (measured
after the child exited) as `Content-Length`.  The filesystem state is returned
untouched: every one of these paths leaves the scratch directory in place for
the `finally` block. -/
def handle_download_try (url fmt : String) (tool : ToolOutcome) (fs : FsState) :
    Outcome × FsState :=
  if tool.timedOut then
    (.formError 408 "Download timed out. Please try a shorter or different video.", fs)
  else if !(tool.returncode == 0) then
    (.formError 400 "Download failed. URL may be invalid, restricted, or blocked.", fs)
  else
    match sortedGenerated tool.files with
    | [] => (.formError 400 "No file was produced by downloader.", fs)
    | first :: _ =>
      (.stream 200 (mimeFor fmt)
        ("attachment; filename=\"" ++ attachmentFor fmt ++ "\"")
        first.2.length first.2, fs)

/-- The observable result of one `handle_download` call: the HTTP outcome and
whether the scratch directory still exists on return. -/
structure DownloadStep where
  outcome : Outcome
  scratchDirExists : Bool
deriving DecidableEq

/-- Embeds `AppHandler.handle_download` (`src/app.py`): create the scratch
directory, run the `try` body (abstracted over the tool behaviour), then
unconditionally `shutil.rmtree` the directory in the `finally` block. -/
def handle_download (url fmt : String) (tool : ToolOutcome) : DownloadStep :=
  match handle_download_try url fmt tool { scratchDirExists := true } with
  | (out, fs) => { outcome := out, scratchDirExists := (shutil_rmtree fs).scratchDirExists }

/-- Embeds the full `do_POST` flow on `/download`: run the validation
pipeline, answer its error directly, or hand over to `handle_download`. -/
def do_POST (clHeader : Option Int) (form : Form) (toolAvailable : Bool)
    (tool : ToolOutcome) : Outcome :=
  match validate_post clHeader form toolAvailable with
  | .respondError s m => .formError s m
  | .invokeDownload u f => (handle_download u f tool).outcome

/-- Shell metacharacters used to witness command-injection-style inputs. -/
def shellMetachars : List Char := [';', '|', '&', '$', '<', '>', '(', ')']

/-- Whether a string contains any shell metacharacter. -/
def containsShellMeta (s : String) : Bool := s.data.any (fun c => shellMetachars.contains c)

/-- A successful `listStartsWith` exhibits the haystack as pattern plus rest. -/
theorem listStartsWith_iff (p : List Char) :
    ∀ l : List Char, listStartsWith p l = true ↔ ∃ t, l = p ++ t := by
  induction p with
  | nil =>
    intro l
    simp [listStartsWith]
  | cons a as ih =>
    intro l
    cases l with
    | nil =>
      simp [listStartsWith]
    | cons b bs =>
      simp only [listStartsWith, Bool.and_eq_true, beq_iff_eq, ih bs, List.cons_append]
      constructor
      · rintro ⟨rfl, t, rfl⟩
        exact ⟨t, rfl⟩
      · rintro ⟨t, h⟩
        cases h
        exact ⟨rfl, t, rfl⟩

/-- Every character among the first `n ≤ p.length` characters of a list that
starts with `p` is a character of `p`. -/
theorem startsWith_take_mem (p : List Char) :
    ∀ (l : List Char) (n : Nat), listStartsWith p l = true → n ≤ p.length →
      ∀ c ∈ l.take n, c ∈ p := by
  induction p with
  | nil =>
    intro l n _ hn c hc
    have : n = 0 := Nat.le_zero.mp hn
    subst this
    simp at hc
  | cons a as ih =>
    intro l n hsw hn c hc
    cases l with
    | nil =>
      simp [listStartsWith] at hsw
    | cons b bs =>
      simp only [listStartsWith, Bool.and_eq_true, beq_iff_eq] at hsw
      cases n with
      | zero =>
        simp at hc
      | succ m =>
        simp only [List.take_succ_cons, List.mem_cons] at hc
        rcases hc with rfl | hc
        · exact hsw.1 ▸ List.mem_cons_self _ _
        · exact List.mem_cons_of_mem _ (ih bs m hsw.2 (Nat.le_of_succ_le_succ hn) c hc)

/-- ASCII lower-casing fixes every shell metacharacter. -/
theorem shellMeta_toLower {c : Char} (h : c ∈ shellMetachars) : c.toLower = c := by
  fin_cases h <;> rfl

/-- A shell metacharacter among the first seven characters of a string defeats
the `^https?://` regex: those positions are covered by the literal prefix
`http://` or by the first seven characters of `https://`, none of which is a
metacharacter. -/
theorem urlRe_no_meta (s : String) (c : Char)
    (hc : c ∈ s.data.take 7) (hm : c ∈ shellMetachars) : URL_RE_match s = false := by
  by_contra h
  rw [Bool.not_eq_false] at h
  have hlow : Char.toLower c ∈ (s.data.map Char.toLower).take 7 := by
    rw [← List.map_take]
    exact List.mem_map_of_mem _ hc
  rw [shellMeta_toLower hm] at hlow
  have hcases : listStartsWith "http://".data (s.data.map Char.toLower) = true ∨
      listStartsWith "https://".data (s.data.map Char.toLower) = true := by
    simpa [URL_RE_match, pyLower, Bool.or_eq_true] using h
  have hmem : c ∈ "http://".data ∨ c ∈ "https://".data := by
    rcases hcases with h1 | h2
    · exact Or.inl (startsWith_take_mem _ _ 7 h1 (by decide) c hlow)
    · exact Or.inr (startsWith_take_mem _ _ 7 h2 (by decide) c hlow)
  have hlist : c = ';' ∨ c = '|' ∨ c = '&' ∨ c = '$' ∨ c = '<' ∨ c = '>' ∨
      c = '(' ∨ c = ')' := by
    simpa [shellMetachars] using hm
  rcases hmem with hmem | hmem <;>
    rcases hlist with rfl | rfl | rfl | rfl | rfl | rfl | rfl | rfl <;>
    exact absurd hmem (by decide)

/-- Claim C1: on every exit path of `handle_download` — success, non-zero tool
exit, no output file produced, or timeout — the scratch directory created for
the call no longer exists when the operation returns, because the `finally`
block removes it unconditionally. -/
theorem claim_C1_scratch_cleanup :
    ∀ (url fmt : String) (tool : ToolOutcome),
      (handle_download url fmt tool).scratchDirExists = false := by
  intro url fmt tool
  rfl

/-- Claim C3: every string not matching `^https?://` (case-insensitive) is
rejected by `is_valid_http_url`, and every string it accepts parses with
scheme exactly `http` or `https` and a non-empty host (netloc) component. -/
theorem claim_C3_url_shape (s : String) :
    (URL_RE_match s = false → is_valid_http_url s = false) ∧
    (is_valid_http_url s = true →
      ((urlparse s).scheme = "http" ∨ (urlparse s).scheme = "https") ∧
        (urlparse s).netloc ≠ "") := by
  constructor
  · intro h
    simp [is_valid_http_url, h]
  · intro h
    unfold is_valid_http_url at h
    split at h
    · simp only [Bool.and_eq_true, Bool.or_eq_true, beq_iff_eq, Bool.not_eq_true',
        beq_eq_false_iff_ne, ne_eq] at h
      exact ⟨h.1, h.2⟩
    · cases h

/-- Witness for claim C3 at concrete inputs: `ftp://x` fails the regex and is
rejected; `http://host/p` is accepted with scheme `http` and host `host`. -/
theorem claim_C3_url_shape_witness :
    is_valid_http_url "ftp://x" = false ∧
    (((urlparse "http://host/p").scheme = "http" ∨
        (urlparse "http://host/p").scheme = "https") ∧
      (urlparse "http://host/p").netloc ≠ "") :=
  ⟨(claim_C3_url_shape "ftp://x").1 (by decide),
   (claim_C3_url_shape "http://host/p").2 (by decide)⟩

/-- Rejection by the pipeline, phrased as: `validate_post` never reaches the
`invokeDownload` action, so `handle_download` is never called. -/
def pipelineRejects (clHeader : Option Int) (form : Form) (toolAvailable : Bool) : Prop :=
  ∀ u f, validate_post clHeader form toolAvailable ≠ PostAction.invokeDownload u f

/-- Claim C2: `detect_platform` answers `YouTube` when the lower-cased URL
contains `youtube.com` or `youtu.be`, `Kling AI` when it contains `klingai` or
`kling.ai` (and no YouTube marker), and `Unknown` otherwise; and any request
whose computed URL field detects as `Unknown` is rejected by the validation
pipeline — the orchestrator is never invoked — whatever the URL shape. -/
theorem claim_C2_platform_detection (url : String) (clHeader : Option Int)
    (form : Form) (ta : Bool) :
    ((containsSub (pyLower url) "youtube.com" || containsSub (pyLower url) "youtu.be") = true →
      detect_platform url = "YouTube") ∧
    ((containsSub (pyLower url) "youtube.com" || containsSub (pyLower url) "youtu.be") = false →
      (containsSub (pyLower url) "klingai" || containsSub (pyLower url) "kling.ai") = true →
      detect_platform url = "Kling AI") ∧
    ((containsSub (pyLower url) "youtube.com" || containsSub (pyLower url) "youtu.be") = false →
      (containsSub (pyLower url) "klingai" || containsSub (pyLower url) "kling.ai") = false →
      detect_platform url = "Unknown") ∧
    (detect_platform (formUrl form) = "Unknown" → pipelineRejects clHeader form ta) := by
  refine ⟨?_, ?_, ?_, ?_⟩
  · intro h
    simp [detect_platform, h]
  · intro h1 h2
    simp [detect_platform, h1, h2]
  · intro h1 h2
    simp [detect_platform, h1, h2]
  · intro h u f hcontra
    unfold validate_post at hcontra
    split_ifs at hcontra <;> simp_all

/-- Witness for claim C2: the detection branches on concrete URLs, and the
pipeline rejecting a well-shaped URL on an unrecognized domain. -/
theorem claim_C2_platform_detection_witness :
    detect_platform "https://WWW.YOUTUBE.COM/watch?v=abc" = "YouTube" ∧
    detect_platform "https://kling.ai/some/video" = "Kling AI" ∧
    detect_platform "https://example.com/video" = "Unknown" ∧
    validate_post (some 40) ⟨some "https://example.com/video", some "mp3"⟩ true ≠
      PostAction.invokeDownload "https://example.com/video" "mp3" :=
  ⟨(claim_C2_platform_detection "https://WWW.YOUTUBE.COM/watch?v=abc" (some 40)
      ⟨some "https://example.com/video", some "mp3"⟩ true).1 (by decide),
   (claim_C2_platform_detection "https://kling.ai/some/video" (some 40)
      ⟨some "https://example.com/video", some "mp3"⟩ true).2.1 (by decide) (by decide),
   (claim_C2_platform_detection "https://example.com/video" (some 40)
      ⟨some "https://example.com/video", some "mp3"⟩ true).2.2.1 (by decide) (by decide),
   (claim_C2_platform_detection "https://example.com/video" (some 40)
      ⟨some "https://example.com/video", some "mp3"⟩ true).2.2.2 (by decide)
     "https://example.com/video" "mp3"⟩

/-- Claim C4 as written is false: the allow-list is a substring check over the
whole URL, not over its host.  The host of this URL is `evil.example` — a domain
whose platform detects as `Unknown` — yet the pipeline accepts the request
because `youtube.com` appears in the query string. -/
theorem claim_C4_counterexample :
    validate_post (some 10) ⟨some "http://evil.example/?youtube.com", some "mp4"⟩ true =
      PostAction.invokeDownload "http://evil.example/?youtube.com" "mp4" ∧
    detect_platform (urlparse "http://evil.example/?youtube.com").netloc = "Unknown" := by
  constructor <;> decide

/-- Claim C4 (amended): every request the pipeline accepts has a URL that
contains one of the allow-listed markers (`youtube.com`, `youtu.be`,
`klingai`, `kling.ai`, case-insensitively) somewhere in the URL — the check is
substring-based over the whole URL, not restricted to the host — and that URL
also passed the http/https shape check. -/
theorem claim_C4_allowlist_amended (clHeader : Option Int) (form : Form) (ta : Bool)
    (u f : String)
    (h : validate_post clHeader form ta = PostAction.invokeDownload u f) :
    detect_platform u ≠ "Unknown" ∧ is_valid_http_url u = true := by
  unfold validate_post at h
  split_ifs at h with h1 h2 h3 h4 h5 <;> simp_all

/-- Witness for the amended claim C4 at a concrete accepted request. -/
theorem claim_C4_allowlist_amended_witness :
    detect_platform "https://youtu.be/abc" ≠ "Unknown" ∧
    is_valid_http_url "https://youtu.be/abc" = true :=
  claim_C4_allowlist_amended (some 25) ⟨some "https://youtu.be/abc", some "mp4"⟩ true
    "https://youtu.be/abc" "mp4" (by decide)

/-- Claim C5 as written is false: a URL can contain a shell metacharacter and
still pass the shape check.  `http://a;b` contains `;` yet validates. -/
theorem claim_C5_counterexample :
    containsShellMeta "http://a;b" = true ∧ is_valid_http_url "http://a;b" = true := by
  constructor <;> decide

/-- Claim C5 (amended): a shell metacharacter occurring within the first seven
characters — the region the `^https?://` scheme prefix must occupy — defeats
the regex, so the shape check rejects the input; metacharacters appearing
after a well-formed scheme prefix are not rejected by the shape check (they
reach the tool as inert argv data, since no shell is involved). -/
theorem claim_C5_injection_amended (s : String) (c : Char)
    (hc : c ∈ s.data.take 7) (hm : c ∈ shellMetachars) :
    is_valid_http_url s = false := by
  have h := urlRe_no_meta s c hc hm
  simp [is_valid_http_url, h]

/-- Witness for the amended claim C5: a classic injection payload rejected by
the shape check. -/
theorem claim_C5_injection_amended_witness :
    is_valid_http_url "$(reboot)" = false :=
  claim_C5_injection_amended "$(reboot)" '$' (by decide) (by decide)

/-- Claim C8: a present format whose trimmed, lower-cased value is neither
`mp4` nor `mp3` makes the pipeline reject the request (the orchestrator is
never invoked); an absent format field defaults to `mp4`, and an accepted
request with absent format proceeds with format `mp4`. -/
theorem claim_C8_format_validation (clHeader : Option Int) (form : Form) (ta : Bool) :
    (∀ raw, form.format = some raw →
      pyLower (pyStrip raw) ≠ "mp4" → pyLower (pyStrip raw) ≠ "mp3" →
      pipelineRejects clHeader form ta) ∧
    (form.format = none → formFormat form = "mp4") ∧
    (form.format = none → ∀ u f,
      validate_post clHeader form ta = PostAction.invokeDownload u f → f = "mp4") := by
  refine ⟨?_, ?_, ?_⟩
  · intro raw hraw h4 h3 u f hcontra
    have hff : formFormat form = pyLower (pyStrip raw) := by
      simp [formFormat, hraw]
    unfold validate_post at hcontra
    split_ifs at hcontra <;> simp_all
  · intro h
    simp only [formFormat, h]
    decide
  · intro h u f hcontra
    have hff : formFormat form = "mp4" := by
      simp only [formFormat, h]
      decide
    unfold validate_post at hcontra
    split_ifs at hcontra <;> simp_all

/-- Witness for claim C8: the format ` AVI ` (trimming and lower-casing to
`avi`) is rejected on an otherwise valid request; an absent format field
computes to `mp4`. -/
theorem claim_C8_format_validation_witness :
    validate_post (some 30) ⟨some "https://youtu.be/a", some " AVI "⟩ true ≠
      PostAction.invokeDownload "https://youtu.be/a" "avi" ∧
    formFormat ⟨some "https://youtu.be/a", none⟩ = "mp4" :=
  ⟨(claim_C8_format_validation (some 30) ⟨some "https://youtu.be/a", some " AVI "⟩ true).1
      " AVI " rfl (by decide) (by decide) "https://youtu.be/a" "avi",
   (claim_C8_format_validation (some 30) ⟨some "https://youtu.be/a", none⟩ true).2.1 rfl⟩

/-- Claim C9: a declared body size that is zero, negative, absent (read as
zero) or above `MAX_FORM_BYTES` is answered with HTTP 400 and the fixed
message, and the whole response is independent of the form fields, the tool
availability and the tool behaviour — neither field validation nor the
orchestrator takes part. -/
theorem claim_C9_body_size (clHeader : Option Int) (form form' : Form) (ta ta' : Bool)
    (tool tool' : ToolOutcome)
    (h : contentLengthOf clHeader ≤ 0 ∨ MAX_FORM_BYTES < contentLengthOf clHeader) :
    do_POST clHeader form ta tool =
      Outcome.formError 400 "Request is too large or invalid." ∧
    do_POST clHeader form ta tool = do_POST clHeader form' ta' tool' := by
  rcases h with h | h <;>
    constructor <;>
    simp [do_POST, validate_post, h]

/-- Witness for claim C9: an absent `Content-Length` header reads as zero and
is rejected identically for two entirely different forms and tool states. -/
theorem claim_C9_body_size_witness :
    do_POST none ⟨none, none⟩ true ⟨false, 0, "", "", []⟩ =
      Outcome.formError 400 "Request is too large or invalid." ∧
    do_POST none ⟨none, none⟩ true ⟨false, 0, "", "", []⟩ =
      do_POST none ⟨some "https://youtu.be/a", some "mp4"⟩ false ⟨true, 1, "x", "y", []⟩ :=
  claim_C9_body_size none ⟨none, none⟩ ⟨some "https://youtu.be/a", some "mp4"⟩ true false
    ⟨false, 0, "", "", []⟩ ⟨true, 1, "x", "y", []⟩ (Or.inl (by decide))

/-- Claim C10: a format field that is present but blank (`format=`) is
rejected with the invalid-format error instead of defaulting to `mp4`; the
default applies only to an absent field (see claim C8). -/
theorem claim_C10_blank_format (clHeader : Option Int) (form : Form) (ta : Bool)
    (hcl : ¬(contentLengthOf clHeader ≤ 0 ∨ MAX_FORM_BYTES < contentLengthOf clHeader))
    (hfmt : form.format = some "")
    (hne : formUrl form ≠ "")
    (hvalid : is_valid_http_url (formUrl form) = true) :
    validate_post clHeader form ta = PostAction.respondError 400 "Invalid format selected." := by
  have hff : formFormat form = "" := by
    simp only [formFormat, hfmt]
    decide
  unfold validate_post
  split_ifs with h1 h2 h3 h4 h5
  all_goals first
    | rfl
    | (simp [hff] at h3)
    | (simp [hne, hvalid] at h2)
    | (exact absurd (by simpa using h1) hcl)

/-- Witness for claim C10: `format=` on an otherwise valid YouTube request is
answered with the invalid-format error. -/
theorem claim_C10_blank_format_witness :
    validate_post (some 20) ⟨some "https://youtube.com/w", some ""⟩ true =
      PostAction.respondError 400 "Invalid format selected." :=
  claim_C10_blank_format (some 20) ⟨some "https://youtube.com/w", some ""⟩ true
    (by decide) rfl (by decide) (by decide)

/-- Claim C7: an unavailable tool on an otherwise valid request answers 503;
a timed-out child answers 408; a non-zero exit answers 400; a zero exit with
no matching output answers 400 — each with its fixed user-facing message,
which is a string constant and therefore (as the quantification over the
captured `stdout`/`stderr` of the tool shows) never contains raw tool output. -/
theorem claim_C7_failure_mapping (clHeader : Option Int) (form : Form)
    (url fmt : String) (tool : ToolOutcome) :
    (¬(contentLengthOf clHeader ≤ 0 ∨ MAX_FORM_BYTES < contentLengthOf clHeader) →
      formUrl form ≠ "" → is_valid_http_url (formUrl form) = true →
      (formFormat form = "mp4" ∨ formFormat form = "mp3") →
      detect_platform (formUrl form) ≠ "Unknown" →
      validate_post clHeader form false =
        PostAction.respondError 503 "yt-dlp is not installed on this server.") ∧
    (tool.timedOut = true →
      (handle_download url fmt tool).outcome =
        Outcome.formError 408 "Download timed out. Please try a shorter or different video.") ∧
    (tool.timedOut = false → tool.returncode ≠ 0 →
      (handle_download url fmt tool).outcome =
        Outcome.formError 400 "Download failed. URL may be invalid, restricted, or blocked.") ∧
    (tool.timedOut = false → tool.returncode = 0 → sortedGenerated tool.files = [] →
      (handle_download url fmt tool).outcome =
        Outcome.formError 400 "No file was produced by downloader.") := by
  have houtcome : (handle_download url fmt tool).outcome =
      (handle_download_try url fmt tool { scratchDirExists := true }).1 := rfl
  refine ⟨?_, ?_, ?_, ?_⟩
  · intro hcl hne hvalid hfmt hplat
    rcases hfmt with hf | hf <;>
      (unfold validate_post; split_ifs <;> simp_all) <;> omega
  · intro h
    rw [houtcome]
    simp [handle_download_try, h]
  · intro h1 h2
    rw [houtcome]
    simp [handle_download_try, h1, h2]
  · intro h1 h2 h3
    rw [houtcome]
    simp [handle_download_try, h1, h2, h3]

/-- Witness for claim C7 at concrete requests and tool outcomes, one per
failure kind; the diagnostics captured from the tool vary and never surface. -/
theorem claim_C7_failure_mapping_witness :
    validate_post (some 30) ⟨some "https://youtu.be/a", some "mp4"⟩ false =
      PostAction.respondError 503 "yt-dlp is not installed on this server." ∧
    (handle_download "https://youtu.be/a" "mp4" ⟨true, 0, "partial", "", []⟩).outcome =
      Outcome.formError 408 "Download timed out. Please try a shorter or different video." ∧
    (handle_download "https://youtu.be/a" "mp4" ⟨false, 1, "", "ERROR: boom", []⟩).outcome =
      Outcome.formError 400 "Download failed. URL may be invalid, restricted, or blocked." ∧
    (handle_download "https://youtu.be/a" "mp4" ⟨false, 0, "done", "", []⟩).outcome =
      Outcome.formError 400 "No file was produced by downloader." :=
  ⟨(claim_C7_failure_mapping (some 30) ⟨some "https://youtu.be/a", some "mp4"⟩
      "https://youtu.be/a" "mp4" ⟨true, 0, "partial", "", []⟩).1
      (by decide) (by decide) (by decide) (Or.inl (by decide)) (by decide),
   (claim_C7_failure_mapping (some 30) ⟨some "https://youtu.be/a", some "mp4"⟩
      "https://youtu.be/a" "mp4" ⟨true, 0, "partial", "", []⟩).2.1 rfl,
   (claim_C7_failure_mapping (some 30) ⟨some "https://youtu.be/a", some "mp4"⟩
      "https://youtu.be/a" "mp4" ⟨false, 1, "", "ERROR: boom", []⟩).2.2.1 rfl (by decide),
   (claim_C7_failure_mapping (some 30) ⟨some "https://youtu.be/a", some "mp4"⟩
      "https://youtu.be/a" "mp4" ⟨false, 0, "done", "", []⟩).2.2.2 rfl rfl
      (by simp [sortedGenerated])⟩

/-- Lexicographic order on character lists is reflexive. -/
theorem charListLe_refl : ∀ as, charListLe as as = true := by
  intro as
  induction as with
  | nil => rfl
  | cons a as ih => simp [charListLe, ih]

/-- Lexicographic order on character lists is transitive. -/
theorem charListLe_trans :
    ∀ as bs cs, charListLe as bs = true → charListLe bs cs = true →
      charListLe as cs = true := by
  intro as
  induction as with
  | nil =>
    intro bs cs _ _
    rfl
  | cons a as ih =>
    intro bs cs hab hbc
    cases bs with
    | nil => simp [charListLe] at hab
    | cons b bs =>
      cases cs with
      | nil => simp [charListLe] at hbc
      | cons c cs =>
        simp only [charListLe] at hab hbc ⊢
        by_cases h1 : a < b
        · by_cases h2 : b < c
          · simp [lt_trans h1 h2]
          · by_cases h3 : c < b
            · simp [h2, h3] at hbc
            · have hbceq : b = c := le_antisymm (not_lt.mp h3) (not_lt.mp h2)
              subst hbceq
              simp [h1]
        · by_cases h1' : b < a
          · simp [h1, h1'] at hab
          · have habeq : a = b := le_antisymm (not_lt.mp h1') (not_lt.mp h1)
            subst habeq
            simp only [lt_irrefl, if_false] at hab
            by_cases h2 : a < c
            · simp [h2]
            · by_cases h3 : c < a
              · simp [h2, h3] at hbc
              · simp only [h2, h3, if_false] at hbc ⊢
                exact ih bs cs hab hbc

/-- Lexicographic order on character lists is total. -/
theorem charListLe_total : ∀ as bs, (charListLe as bs || charListLe bs as) = true := by
  intro as
  induction as with
  | nil =>
    intro bs
    simp [charListLe]
  | cons a as ih =>
    intro bs
    cases bs with
    | nil => simp [charListLe]
    | cons b bs =>
      simp only [charListLe]
      rcases lt_trichotomy a b with h | h | h
      · simp [h]
      · subst h
        simpa [lt_irrefl] using ih bs
      · simp [h, lt_asymm h]

/-- Claim C6: on a zero exit, if no scratch-directory entry matches
`downloaded.*` the request fails with the no-output error; otherwise the
response is HTTP 200 with the MIME type of the format, an attachment disposition
naming `downloaded.mp4`/`downloaded.mp3`, `Content-Length` equal to the
chosen file (its post-run size), a body equal to the bytes of that file, and the chosen
file is lexicographically least (`strLe`) among all matching entries. -/
theorem claim_C6_success_response (url fmt : String) (tool : ToolOutcome)
    (hto : tool.timedOut = false) (hrc : tool.returncode = 0) :
    (sortedGenerated tool.files = [] →
      (handle_download url fmt tool).outcome =
        Outcome.formError 400 "No file was produced by downloader.") ∧
    (∀ first rest, sortedGenerated tool.files = first :: rest →
      (handle_download url fmt tool).outcome =
        Outcome.stream 200 (mimeFor fmt)
          ("attachment; filename=\"" ++ attachmentFor fmt ++ "\"")
          first.2.length first.2 ∧
      ∀ g ∈ tool.files, globDownloadedMatch g.1 = true → strLe first.1 g.1 = true) ∧
    (mimeFor "mp4" = "video/mp4" ∧ attachmentFor "mp4" = "downloaded.mp4" ∧
      mimeFor "mp3" = "audio/mpeg" ∧ attachmentFor "mp3" = "downloaded.mp3") := by
  have houtcome : (handle_download url fmt tool).outcome =
      (handle_download_try url fmt tool { scratchDirExists := true }).1 := rfl
  refine ⟨?_, ?_, by decide⟩
  · intro hgen
    rw [houtcome]
    simp [handle_download_try, hto, hrc, hgen]
  · intro first rest hgen
    constructor
    · rw [houtcome]
      simp [handle_download_try, hto, hrc, hgen]
    · intro g hg hmatch
      have hsorted : (sortedGenerated tool.files).Pairwise
          (fun a b => strLe a.1 b.1 = true) := by
        have := @List.sorted_mergeSort (String × List Nat)
          (fun a b => strLe a.1 b.1)
          (fun a b c hab hbc => charListLe_trans _ _ _ hab hbc)
          (fun a b => charListLe_total a.1.data b.1.data)
          (tool.files.filter (fun f => globDownloadedMatch f.1))
        simpa [sortedGenerated] using this
      have hmem : g ∈ sortedGenerated tool.files := by
        unfold sortedGenerated
        rw [List.mem_mergeSort]
        exact List.mem_filter.mpr ⟨hg, hmatch⟩
      rw [hgen] at hsorted hmem
      rcases List.mem_cons.mp hmem with rfl | hmem'
      · exact charListLe_refl _
      · exact (List.pairwise_cons.mp hsorted).1 g hmem'

/-- Witness for claim C6: a run that produced both `downloaded.mp4` and an
extra artifact `downloaded.part` streams the lexicographically first match
with exact size and bytes. -/
theorem claim_C6_success_response_witness :
    (handle_download "https://youtu.be/a" "mp4"
        ⟨false, 0, "", "", [("downloaded.mp4", [10, 20, 30]), ("downloaded.part", [1])]⟩).outcome =
      Outcome.stream 200 "video/mp4" "attachment; filename=\"downloaded.mp4\"" 3 [10, 20, 30] ∧
    strLe "downloaded.mp4" "downloaded.part" = true := by
  have hgen : sortedGenerated [("downloaded.mp4", [10, 20, 30]), ("downloaded.part", [1])] =
      [(("downloaded.mp4" : String), ([10, 20, 30] : List Nat)), ("downloaded.part", [1])] := by
    unfold sortedGenerated
    have hf : ([(("downloaded.mp4" : String), ([10, 20, 30] : List Nat)),
        ("downloaded.part", [1])].filter (fun f => globDownloadedMatch f.1)) =
        [("downloaded.mp4", [10, 20, 30]), ("downloaded.part", [1])] := by decide
    rw [hf]
    exact List.mergeSort_of_sorted (by decide)
  have h := (claim_C6_success_response "https://youtu.be/a" "mp4"
      ⟨false, 0, "", "", [("downloaded.mp4", [10, 20, 30]), ("downloaded.part", [1])]⟩
      rfl rfl).2.1 ("downloaded.mp4", [10, 20, 30]) [("downloaded.part", [1])] hgen
  exact ⟨h.1, h.2 ("downloaded.part", [1]) (by decide) (by decide)⟩

end App
